import Mathlib

/-!
Shallow embedding of the opengpts agent executor
(`backend/app/new_agent.py`, `backend/app/agent.py`,
`backend/app/api/runs.py`) and proofs about it.
-/

set_option autoImplicit false

namespace OpenGPTs

/-- Message content: either plain text or a structured payload
(Python `content: Union[str, list]`). -/
inductive Content where
  | text (s : String)
  | blocks (l : List String)
  deriving DecidableEq, Repr

/-- Model of Python `str(content)`: the identity on a string, a list
rendering on a structured payload. -/
def pyStr : Content → String
  | .text s => s
  | .blocks l => "[" ++ String.intercalate ", " l ++ "]"

/-- A tool call entry of an assistant message: `{"id": ..., "name": ...,
"args": ...}`. -/
structure ToolCall where
  id : String
  name : String
  args : String
  deriving DecidableEq, Repr

/-- The langchain message classes used by `new_agent.py`: human, assistant
(with its tool-call list), system, tool, `LiberalToolMessage` and
function-role messages. -/
inductive Message where
  | human (content : Content)
  | ai (content : Content) (tool_calls : List ToolCall)
  | system (content : Content)
  | tool (content : Content) (tool_call_id : String) (name : String)
  | liberalTool (content : Content) (tool_call_id : String) (name : String)
  | function (content : Content) (name : String)
  deriving DecidableEq, Repr

/-- `message.tool_calls`: the tool-call list of an assistant message;
other message classes carry none. -/
def Message.tool_calls : Message → List ToolCall
  | .ai _ tcs => tcs
  | _ => []

/-- `message.tool_call_id` of a tool-role message (empty for the rest). -/
def Message.tool_call_id : Message → String
  | .tool _ tcid _ => tcid
  | .liberalTool _ tcid _ => tcid
  | _ => ""

/-- `message.name` of a tool-role message (empty for the rest). -/
def Message.tool_name : Message → String
  | .tool _ _ n => n
  | .liberalTool _ _ n => n
  | .function _ n => n
  | _ => ""

/-- `should_continue` from `new_agent.py`: look at the last message; if its
tool-call list is empty return "end", otherwise "continue". -/
def should_continue (messages : List Message) (h : messages ≠ []) : String :=
  if (messages.getLast h).tool_calls = [] then "end" else "continue"

/-- Modelled from the spec: the `AvailableTools` tags of `app/tools.py`
(the module itself is not in the sources); the tags beyond `RETRIEVAL` are
the tool classes `app/agent.py` imports from it. -/
inductive AvailableTools where
  | RETRIEVAL
  | ACTION_SERVER
  | CONNERY
  | DDG_SEARCH
  | ARXIV
  | YOU_SEARCH
  | SEC_FILINGS
  | PRESS_RELEASES
  | PUBMED
  | WIKIPEDIA
  | TAVILY
  | TAVILY_ANSWER
  deriving DecidableEq, Repr

/-- A resolved tool (opaque to the executor: only identity matters here). -/
structure Tool where
  name : String
  deriving DecidableEq, Repr

/-- One entry of the configured tool roster: a tag plus an optional
per-tool configuration map (`_tool["type"]`, `_tool.get("config", {})`). -/
structure ToolSpec where
  type : AvailableTools
  config : List (String × String)
  deriving DecidableEq, Repr

/-- Modelled from the spec: `TOOLS[tag](**config)` of `app/tools.py` may
return a single tool or a list of tools. -/
inductive ToolsValue where
  | one (t : Tool)
  | many (ts : List Tool)

/-- The exact message of the `ValueError` raised by `get_tools` (and by
`ConfigurableAgent.__init__`) for a retrieval entry without both ids. -/
def retrieval_ids_error : String :=
  "Both assistant_id and thread_id must be provided if Retrieval tool is used"

/-- One iteration of the `get_tools` loop: a retrieval entry requires both
ids and resolves via `get_retrieval_tool`; any other entry resolves via the
`TOOLS` registry, flattening a returned list. -/
def resolve_tool (registry : AvailableTools → List (String × String) → ToolsValue)
    (retrieval_tool : String → String → String → Tool)
    (assistant_id thread_id : Option String) (retrieval_description : String)
    (t : ToolSpec) : Except String (List Tool) :=
  if t.type = AvailableTools.RETRIEVAL then
    match assistant_id, thread_id with
    | some a, some b => .ok [retrieval_tool a b retrieval_description]
    | _, _ => .error retrieval_ids_error
  else
    match registry t.type t.config with
    | .one tl => .ok [tl]
    | .many ts => .ok ts

/-- `get_tools` from `new_agent.py`: fold the roster left to right,
raising at the first retrieval entry missing an id. -/
def get_tools (registry : AvailableTools → List (String × String) → ToolsValue)
    (retrieval_tool : String → String → String → Tool)
    (tools : List ToolSpec) (assistant_id thread_id : Option String)
    (retrieval_description : String) : Except String (List Tool) :=
  match tools with
  | [] => .ok []
  | t :: rest =>
    match resolve_tool registry retrieval_tool assistant_id thread_id
        retrieval_description t with
    | .error e => .error e
    | .ok hd =>
      match get_tools registry retrieval_tool rest assistant_id thread_id
          retrieval_description with
      | .error e => .error e
      | .ok tl => .ok (hd ++ tl)

/-- The relevant `configurable` fields consumed by `call_tool`. -/
structure AgentConfig where
  tools : List ToolSpec
  assistant_id : Option String
  thread_id : Option String
  retrieval_description : String

/-- `call_tool` from `new_agent.py`: resolve the tool roster, build one
`ToolInvocation` per tool call of the last (assistant) message, dispatch
the batch (`tool_executor.abatch` returns one response per invocation, in
invocation order — modelled by the pure dispatch function `exec`), and zip
calls with responses into `LiberalToolMessage`s. -/
def call_tool (registry : AvailableTools → List (String × String) → ToolsValue)
    (retrieval_tool : String → String → String → Tool)
    (exec : String → String → Content) (cfg : AgentConfig)
    (messages : List Message) (h : messages ≠ []) :
    Except String (List Message) :=
  match get_tools registry retrieval_tool cfg.tools cfg.assistant_id
      cfg.thread_id cfg.retrieval_description with
  | .error e => .error e
  | .ok _tools =>
    let last_message := messages.getLast h
    let actions := last_message.tool_calls.map (fun tc => (tc.name, tc.args))
    let responses := actions.map (fun a => exec a.1 a.2)
    .ok ((last_message.tool_calls.zip responses).map
      (fun p => Message.liberalTool p.2 p.1.id p.1.name))

/-- `_get_messages` from `new_agent.py`: prepend a system message built
from the configured system text; a `LiberalToolMessage` becomes a
`ToolMessage` with its content stringified, a function-role message becomes
a human message with its content stringified, everything else passes
through. -/
def _get_messages (messages : List Message) (system_message : String) :
    List Message :=
  Message.system (Content.text system_message) ::
    messages.map (fun m =>
      match m with
      | .liberalTool c tcid name => .tool (.text (pyStr c)) tcid name
      | .function c _ => .human (.text (pyStr c))
      | m => m)

/-- langgraph's `END` sentinel node name. -/
def END : String := "__end__"

/-- A `MessageGraph` as built declaratively in `new_agent.py`: node names,
entry point, conditional edges (source, predicate result ↦ target) and
unconditional edges. -/
structure MessageGraphDef where
  nodes : List String
  entry_point : String
  conditional_edges : List (String × List (String × String))
  edges : List (String × String)

/-- The `workflow` graph of `new_agent.py`: nodes "agent" and "action",
entry point "agent", conditional edges from "agent" keyed by
`should_continue` ("continue" ↦ "action", "end" ↦ END), and the
unconditional edge "action" → "agent". -/
def workflow : MessageGraphDef where
  nodes := ["agent", "action"]
  entry_point := "agent"
  conditional_edges := [("agent", [("continue", "action"), ("end", END)])]
  edges := [("action", "agent")]

/-- Targets of unconditional edges out of a node. -/
def MessageGraphDef.successors (g : MessageGraphDef) (src : String) :
    List String :=
  (g.edges.filter (fun e => e.1 = src)).map Prod.snd

/-- Targets reachable by conditional edges out of a node. -/
def MessageGraphDef.conditional_successors (g : MessageGraphDef)
    (src : String) : List String :=
  (g.conditional_edges.filter (fun e => e.1 = src)).map
    (fun e => e.2.map Prod.snd) |>.flatten

/-- The executor's node identifiers (§3 of the spec): the two graph nodes
plus the terminal marker. -/
inductive Node where
  | AGENT
  | ACTION
  | END
  deriving DecidableEq, Repr

/-- Routing out of AGENT: apply `should_continue` to the state and match
its result against the conditional-edge mapping. -/
def route_agent (messages : List Message) (h : messages ≠ []) : Node :=
  if should_continue messages h = "continue" then Node.ACTION else Node.END

/-- Errors a run can end with; the recursion-limit error records the step
index at which the bound was hit. -/
inductive RunError where
  | recursionLimit (step : Nat)
  deriving DecidableEq, Repr

/-- The recursion limit `ConfigurableAgent.__init__` configures on the
compiled executor: `with_config({"recursion_limit": 50})`. -/
def default_recursion_limit : Nat := 50

/-- Modelled from the spec: the step loop of the compiled graph (the
langgraph Pregel loop is library code, not among the sources), per the
step algorithm of §4.1 and §7 — counting down the remaining steps out of
the configured bound: END returns the state; a node executed with no
remaining budget raises the recursion-limit error at step `limit`; AGENT
appends the model reply and routes via `should_continue`; ACTION appends
the tool results and returns to AGENT unconditionally. -/
def run_loop (agent_fn : List Message → Message)
    (tool_fn : List Message → List Message) (limit : Nat) :
    Nat → Node → List Message → Except RunError (List Message)
  | _, Node.END, messages => .ok messages
  | 0, _, _ => .error (RunError.recursionLimit limit)
  | remaining + 1, Node.AGENT, messages =>
    run_loop agent_fn tool_fn limit remaining
      (route_agent (messages ++ [agent_fn messages]) (by simp))
      (messages ++ [agent_fn messages])
  | remaining + 1, Node.ACTION, messages =>
    run_loop agent_fn tool_fn limit remaining Node.AGENT
      (messages ++ tool_fn messages)

/-- Run the compiled graph from its entry point with a step bound. -/
def run_graph (agent_fn : List Message → Message)
    (tool_fn : List Message → List Message) (limit : Nat)
    (input : List Message) : Except RunError (List Message) :=
  run_loop agent_fn tool_fn limit limit Node.AGENT input

/-- A resolved model handle: one constructor per `get_*_llm` helper of
`app/llms.py`, with the flags `get_llm` passes. -/
inductive LLM where
  | openai (gpt_4 azure : Bool)
  | anthropic (bedrock : Bool)
  | google
  | mixtral_fireworks
  | ollama
  deriving DecidableEq, Repr

/-- The values of the `LLMType` enum in `new_agent.py`. -/
def LLMType_values : List String :=
  ["GPT 3.5 Turbo", "GPT 4 Turbo", "GPT 4 (Azure OpenAI)", "Claude 2",
   "Claude 2 (Amazon Bedrock)", "GEMINI", "Mixtral", "Ollama"]

/-- Python error values raised by the configuration resolvers. -/
inductive PyErr where
  | valueError (msg : String)
  | typeError
  deriving DecidableEq, Repr

/-- `get_llm` from `new_agent.py`: dispatch on the tag value; a tag
matching no `LLMType` member falls to the bare `raise ValueError`. -/
def get_llm (llm_type : String) : Except PyErr LLM :=
  if llm_type = "GPT 3.5 Turbo" then .ok (.openai false false)
  else if llm_type = "GPT 4 Turbo" then .ok (.openai true false)
  else if llm_type = "GPT 4 (Azure OpenAI)" then .ok (.openai false true)
  else if llm_type = "Claude 2" then .ok (.anthropic false)
  else if llm_type = "Claude 2 (Amazon Bedrock)" then .ok (.anthropic true)
  else if llm_type = "GEMINI" then .ok .google
  else if llm_type = "Mixtral" then .ok .mixtral_fireworks
  else if llm_type = "Ollama" then .ok .ollama
  else .error (.valueError "")

/-- The values of the `AgentType` enum in `agent.py`. -/
def AgentType_values : List String :=
  ["GPT 3.5 Turbo", "GPT 4 Turbo", "GPT 4 (Azure OpenAI)", "Claude 2",
   "Claude 2 (Amazon Bedrock)", "GEMINI"]

/-- One chat turn of a langsmith `Example` payload: a dict with a `type`
and a `content` field. -/
structure ChatTurn where
  type : String
  content : String
  deriving DecidableEq, Repr

/-- A langsmith `Example`: `inputs["input"]` is a list of turns;
`outputs["output"]` is a single dict for chat datasets and a list of turns
for agent datasets (two fields model the union). -/
structure Example where
  input : List ChatTurn
  outputChat : ChatTurn
  outputAgent : List ChatTurn
  deriving Repr

/-- Modelled from the spec: the langsmith client, reduced to the two
queries `get_few_shot_str` makes (`has_dataset`, `list_examples`, both
keyed by the assistant id used as dataset name). -/
structure Client where
  hasDataset : String → Bool
  listExamples : String → List Example

/-- `_format_chat_example` from `agent.py`. -/
def _format_chat_example (e : Example) : String :=
  let feedback := String.join ((e.input.drop 1).filterMap (fun i =>
    if i.type = "human" then
      some ("<human_feedback>\n" ++ i.content ++ "\n</human_feedback>\n")
    else none))
  "<original_input>\n" ++ (e.input.headD ⟨"", ""⟩).content ++
    "\n</original_input>\n" ++ feedback ++ "<output>\n" ++
    e.outputChat.content ++ "\n</output>"

/-- Render a list of turns as Python would interpolate it into an f-string
(a stand-in for `repr`). -/
def reprTurns (turns : List ChatTurn) : String :=
  "[" ++ String.intercalate ", " (turns.map (fun t => t.content)) ++ "]"

/-- `_format_agent_example` from `agent.py`: walk `outputs["output"][1:]`
backwards, stop at the first human turn, and render the first turn plus the
collected suffix. -/
def _format_agent_example (e : Example) : String :=
  let new_messages := (e.outputAgent.drop 1).reverse.takeWhile
    (fun o => o.type ≠ "human")
  "<trajectory>\n" ++
    reprTurns (e.outputAgent.take 1 ++ new_messages.reverse) ++
    "\n</trajectory>"

/-- The instruction text wrapped around the few-shot examples. -/
def few_shot_preamble : String :=
  "\n\nHere are some previous interactions with a user trying to " ++
  "accomplish a similar task. You should assume that the final output " ++
  "is the desired one, and any intermediate steps were wrong in some " ++
  "way, and the human then tried to improve upon them in specific ways. " ++
  "Learn from these previous interactions and do not repeat past " ++
  "mistakes!\n\n"

/-- `get_few_shot_str` from `agent.py`: when the client has a dataset named
after the assistant id, return a formatted string (empty when the dataset
has no examples); otherwise the function body falls through without a
`return`, i.e. yields Python `None` — modelled as `none`.
`random.sample(examples, min(len(examples), 10))` is modelled by a
deterministic selection of that many examples. -/
def get_few_shot_str (client : Client) (assistant_id : String)
    (agent : Bool) : Option String :=
  if client.hasDataset assistant_id then
    let examples := client.listExamples assistant_id
    if examples.isEmpty then some ""
    else
      let sampled := examples.take (min examples.length 10)
      let example_str := String.intercalate "\n" (sampled.map
        (fun e => if agent then _format_agent_example e
                  else _format_chat_example e))
      some (few_shot_preamble ++ example_str ++ "\n")
  else none

/-- The executor families `get_agent_executor` can return, with the
arguments it forwards. -/
structure AgentExecutor where
  family : String
  llm : LLM
  tools : List Tool
  system_message : String
  interrupt_before_action : Bool
  deriving DecidableEq, Repr

/-- The first statement of `get_agent_executor`: when an assistant id is
given, `system_message += get_few_shot_str(assistant_id, agent=True)` — a
`TypeError` when that call returned `None`. -/
def augmented_system_message (client : Client) (system_message : String)
    (assistant_id : Option String) : Except PyErr String :=
  match assistant_id with
  | some aid =>
    match get_few_shot_str client aid true with
    | some s => .ok (system_message ++ s)
    | none => .error PyErr.typeError
  | none => .ok system_message

/-- `get_agent_executor` from `agent.py`: augment the system message (see
`augmented_system_message`), then dispatch on the agent tag, raising
`ValueError("Unexpected agent type")` for a tag outside `AgentType`. -/
def get_agent_executor (client : Client) (tools : List Tool)
    (agent : String) (system_message : String)
    (interrupt_before_action : Bool) (assistant_id : Option String) :
    Except PyErr AgentExecutor :=
  match augmented_system_message client system_message assistant_id with
  | .error e => .error e
  | .ok sys =>
    if agent = "GPT 3.5 Turbo" then
      .ok ⟨"openai", .openai false false, tools, sys,
        interrupt_before_action⟩
    else if agent = "GPT 4 Turbo" then
      .ok ⟨"openai", .openai true false, tools, sys,
        interrupt_before_action⟩
    else if agent = "GPT 4 (Azure OpenAI)" then
      .ok ⟨"openai", .openai false true, tools, sys,
        interrupt_before_action⟩
    else if agent = "Claude 2" then
      .ok ⟨"xml", .anthropic false, tools, sys, interrupt_before_action⟩
    else if agent = "Claude 2 (Amazon Bedrock)" then
      .ok ⟨"xml", .anthropic true, tools, sys, interrupt_before_action⟩
    else if agent = "GEMINI" then
      .ok ⟨"google", .google, tools, sys, interrupt_before_action⟩
    else
      .error (.valueError "Unexpected agent type")

/-- A stored thread record, as `stream_run` reads it. -/
structure ThreadRec where
  assistant_id : String

/-- A stored assistant record: its `config["configurable"]` dict reduced to
the key `stream_run` reads, holding an optional flag value. -/
structure AssistantRec where
  configurable : String → Option Bool

/-- The key `stream_run` looks up in the assistant's configurable dict. -/
def interrupt_key : String := "type==agent/interrupt_before_action"

/-- An HTTP error response (`HTTPException`). -/
structure HTTPError where
  status_code : Nat
  detail : String
  deriving DecidableEq, Repr

/-- The arguments `stream_run` passes to `runs.stream`, as far as this
development observes them. -/
structure StreamArgs where
  thread_id : String
  assistant_id : String
  stream_mode : String
  interrupt_before : Option (List String)
  deriving DecidableEq, Repr

/-- `stream_run` from `api/runs.py`: 404 when the thread does not exist,
404 when its assistant does not exist, otherwise stream the run with
`interrupt_before=["action"]` exactly when the assistant's configurable
dict holds a truthy value under the interrupt key. -/
def stream_run (get_thread : String → String → Option ThreadRec)
    (get_assistant : String → String → Option AssistantRec)
    (user_id : String) (payload_thread_id : String) :
    Except HTTPError StreamArgs :=
  match get_thread user_id payload_thread_id with
  | none => .error ⟨404, "Thread not found"⟩
  | some thread =>
    match get_assistant user_id thread.assistant_id with
    | none => .error ⟨404, "Assistant not found"⟩
    | some assistant =>
      .ok { thread_id := payload_thread_id
            assistant_id := thread.assistant_id
            stream_mode := "messages"
            interrupt_before :=
              if (assistant.configurable interrupt_key).getD false then
                some ["action"]
              else none }

/-! ## Theorems -/

/-- C1: `should_continue` returns "continue" if and only if the last
message of the sequence carries a non-empty tool-call list, and "end" if
and only if that list is empty. -/
theorem should_continue_iff (messages : List Message) (h : messages ≠ []) :
    (should_continue messages h = "continue" ↔
      (messages.getLast h).tool_calls ≠ []) ∧
    (should_continue messages h = "end" ↔
      (messages.getLast h).tool_calls = []) := by
  unfold should_continue
  by_cases hc : (messages.getLast h).tool_calls = [] <;> simp [hc]

/-- Witness for C1: on concrete sequences whose last message carries zero,
one and two tool calls, `should_continue` returns "end", "continue" and
"continue" respectively. -/
theorem should_continue_iff_witness :
    should_continue [Message.ai (.text "hi") []] (by decide) = "end" ∧
    should_continue [Message.human (.text "q"),
      Message.ai (.text "") [⟨"1", "search", "x"⟩]] (by decide) =
      "continue" ∧
    should_continue [Message.ai (.text "")
      [⟨"1", "search", "x"⟩, ⟨"2", "wiki", "y"⟩]] (by decide) =
      "continue" :=
  ⟨(should_continue_iff _ _).2.mpr (by decide),
   (should_continue_iff _ _).1.mpr (by decide),
   (should_continue_iff _ _).1.mpr (by decide)⟩

/-- C9: the routing predicate depends only on the last message — any two
non-empty sequences with equal last elements are routed identically. -/
theorem should_continue_last_only (xs ys : List Message)
    (hx : xs ≠ []) (hy : ys ≠ [])
    (hlast : xs.getLast hx = ys.getLast hy) :
    should_continue xs hx = should_continue ys hy := by
  unfold should_continue
  rw [hlast]

/-- Witness for C9: two sequences differing everywhere except the last
message are routed identically. -/
theorem should_continue_last_only_witness :
    should_continue [Message.human (.text "a"), Message.human (.text "b"),
        Message.ai (.text "") [⟨"1", "t", "z"⟩]] (by decide) =
      should_continue [Message.system (.text "s"),
        Message.ai (.text "") [⟨"1", "t", "z"⟩]] (by decide) :=
  should_continue_last_only _ _ (by decide) (by decide) (by decide)

/-- C4: the executor graph's fixed topology — nodes "agent" and "action"
only, entry point "agent", the only unconditional edge is
"action" → "agent", and the only conditional edges go out of "agent" to
"action" (on "continue") and to END (on "end"). -/
theorem workflow_topology :
    workflow.entry_point = "agent" ∧
    workflow.nodes = ["agent", "action"] ∧
    workflow.edges = [("action", "agent")] ∧
    workflow.conditional_edges =
      [("agent", [("continue", "action"), ("end", END)])] ∧
    workflow.successors "action" = ["agent"] ∧
    workflow.successors "agent" = [] ∧
    workflow.conditional_successors "agent" = ["action", END] ∧
    workflow.conditional_successors "action" = [] :=
  ⟨rfl, rfl, rfl, rfl, by decide, by decide, by decide, by decide⟩

theorem zip_responses_eq (exec : String → String → Content)
    (tcs : List ToolCall) :
    (tcs.zip ((tcs.map (fun tc => (tc.name, tc.args))).map
        (fun a => exec a.1 a.2))).map
      (fun p => Message.liberalTool p.2 p.1.id p.1.name) =
    tcs.map (fun tc =>
      Message.liberalTool (exec tc.name tc.args) tc.id tc.name) := by
  induction tcs with
  | nil => rfl
  | cons hd tl ih => simpa using ih

/-- C2: when the tool roster resolves, `call_tool` returns exactly one
tool-role message per tool call of the last message, the i-th result
answering the i-th call (same call id, same tool name); when the call ids
are distinct, every call id is answered by exactly one result. -/
theorem call_tool_correlates
    (registry : AvailableTools → List (String × String) → ToolsValue)
    (retrieval_tool : String → String → String → Tool)
    (exec : String → String → Content) (cfg : AgentConfig)
    (messages : List Message) (h : messages ≠ []) (ts : List Tool)
    (hok : get_tools registry retrieval_tool cfg.tools cfg.assistant_id
      cfg.thread_id cfg.retrieval_description = .ok ts) :
    ∃ res, call_tool registry retrieval_tool exec cfg messages h =
        .ok res ∧
      res.length = (messages.getLast h).tool_calls.length ∧
      (∀ i : Nat, res[i]?.map Message.tool_call_id =
        ((messages.getLast h).tool_calls)[i]?.map ToolCall.id) ∧
      (∀ i : Nat, res[i]?.map Message.tool_name =
        ((messages.getLast h).tool_calls)[i]?.map ToolCall.name) ∧
      (((messages.getLast h).tool_calls.map ToolCall.id).Nodup →
        ∀ tc ∈ (messages.getLast h).tool_calls,
          (res.filter (fun m => m.tool_call_id == tc.id)).length = 1) := by
  refine ⟨((messages.getLast h).tool_calls).map (fun tc =>
    Message.liberalTool (exec tc.name tc.args) tc.id tc.name),
    ?_, ?_, ?_, ?_, ?_⟩
  · unfold call_tool
    rw [hok]
    exact congrArg Except.ok (zip_responses_eq exec _)
  · simp
  · intro i
    rw [List.getElem?_map]
    cases ((messages.getLast h).tool_calls)[i]? <;> rfl
  · intro i
    rw [List.getElem?_map]
    cases ((messages.getLast h).tool_calls)[i]? <;> rfl
  · intro hnd tc htc
    rw [← List.countP_eq_length_filter, List.countP_map]
    have hfun : ((fun m => Message.tool_call_id m == tc.id) ∘
        fun tc2 : ToolCall =>
        Message.liberalTool (exec tc2.name tc2.args) tc2.id tc2.name) =
        fun tc2 : ToolCall => tc2.id == tc.id := by
      funext tc2
      rfl
    rw [hfun]
    have hcm : List.countP (fun tc2 : ToolCall => tc2.id == tc.id)
        (messages.getLast h).tool_calls =
        List.count tc.id ((messages.getLast h).tool_calls.map ToolCall.id)
        := by
      rw [List.count_eq_countP, List.countP_map]
      rfl
    rw [hcm]
    exact List.count_eq_one_of_mem hnd (List.mem_map_of_mem ToolCall.id htc)

/-- Witness for C2: a concrete assistant message carrying two tool calls
yields exactly two correlated tool messages from `call_tool`. -/
theorem call_tool_correlates_witness :
    ∃ res,
      call_tool (fun _ _ => ToolsValue.many []) (fun a b _ => ⟨a ++ b⟩)
        (fun n a => Content.text (n ++ a))
        ⟨[], none, none, ""⟩
        [Message.ai (.text "")
          [⟨"1", "search", "x"⟩, ⟨"2", "wiki", "y"⟩]] (by decide) =
        .ok res ∧
      res.length = 2 ∧
      (∀ i : Nat, res[i]?.map Message.tool_call_id =
        ([⟨"1", "search", "x"⟩, ⟨"2", "wiki", "y"⟩] :
          List ToolCall)[i]?.map ToolCall.id) ∧
      (∀ i : Nat, res[i]?.map Message.tool_name =
        ([⟨"1", "search", "x"⟩, ⟨"2", "wiki", "y"⟩] :
          List ToolCall)[i]?.map ToolCall.name) ∧
      (res.filter (fun m => m.tool_call_id == "1")).length = 1 ∧
      (res.filter (fun m => m.tool_call_id == "2")).length = 1 := by
  obtain ⟨res, h1, h2, h3, h4, h5⟩ :=
    call_tool_correlates (fun _ _ => ToolsValue.many [])
      (fun a b _ => ⟨a ++ b⟩) (fun n a => Content.text (n ++ a))
      ⟨[], none, none, ""⟩
      [Message.ai (.text "") [⟨"1", "search", "x"⟩, ⟨"2", "wiki", "y"⟩]]
      (by decide) [] rfl
  refine ⟨res, h1, h2, h3, h4, ?_, ?_⟩
  · exact h5 (by decide) ⟨"1", "search", "x"⟩ (by decide)
  · exact h5 (by decide) ⟨"2", "wiki", "y"⟩ (by decide)

theorem getLast_snoc (xs : List Message) (m : Message)
    (h : xs ++ [m] ≠ []) : (xs ++ [m]).getLast h = m := by
  simp [List.getLast_append]

theorem route_agent_snoc (xs : List Message) (m : Message)
    (hm : m.tool_calls ≠ []) :
    route_agent (xs ++ [m]) (by simp) = Node.ACTION := by
  unfold route_agent should_continue
  rw [getLast_snoc]
  simp [hm]

theorem run_loop_limit (agent_fn : List Message → Message)
    (tool_fn : List Message → List Message) (limit : Nat)
    (hagent : ∀ msgs, (agent_fn msgs).tool_calls ≠ []) :
    ∀ (remaining : Nat) (node : Node) (messages : List Message),
      node ≠ Node.END →
      run_loop agent_fn tool_fn limit remaining node messages =
        .error (RunError.recursionLimit limit) := by
  intro remaining
  induction remaining with
  | zero =>
    intro node messages hn
    cases node <;> simp_all [run_loop]
  | succ r ih =>
    intro node messages hn
    cases node with
    | AGENT =>
      rw [run_loop, route_agent_snoc _ _ (hagent messages)]
      exact ih Node.ACTION _ (by simp)
    | ACTION =>
      rw [run_loop]
      exact ih Node.AGENT _ (by simp)
    | END => exact absurd rfl hn

/-- C3: an agent whose every reply carries tool calls never reaches END;
the run fails with the recursion-limit error at step 50 under the default
bound (`with_config({"recursion_limit": 50})`), and at step 3 when the
bound is configured to 3. -/
theorem recursion_limit_bound (agent_fn : List Message → Message)
    (tool_fn : List Message → List Message) (input : List Message)
    (hagent : ∀ msgs, (agent_fn msgs).tool_calls ≠ []) :
    run_graph agent_fn tool_fn default_recursion_limit input =
      .error (RunError.recursionLimit 50) ∧
    run_graph agent_fn tool_fn 3 input =
      .error (RunError.recursionLimit 3) :=
  ⟨run_loop_limit agent_fn tool_fn 50 hagent 50 Node.AGENT input
      (by simp),
   run_loop_limit agent_fn tool_fn 3 hagent 3 Node.AGENT input (by simp)⟩

/-- Witness for C3: a concrete always-looping agent hits the bound at step
50 by default and at step 3 with the bound set to 3. -/
theorem recursion_limit_bound_witness :
    run_graph (fun _ => Message.ai (Content.text "") [⟨"1", "loop", ""⟩])
      (fun _ => [Message.liberalTool (Content.text "") "1" "loop"])
      default_recursion_limit [Message.human (Content.text "go")] =
      .error (RunError.recursionLimit 50) ∧
    run_graph (fun _ => Message.ai (Content.text "") [⟨"1", "loop", ""⟩])
      (fun _ => [Message.liberalTool (Content.text "") "1" "loop"])
      3 [Message.human (Content.text "go")] =
      .error (RunError.recursionLimit 3) :=
  recursion_limit_bound _ _ _ (fun _ => by decide)

/-- C5: a roster containing a retrieval entry with assistant id or thread
id (or both) absent makes `get_tools` raise the configuration
`ValueError` (so no tool is dispatched: `call_tool` resolves tools before
building any invocation); with both ids present resolution succeeds. -/
theorem get_tools_retrieval_guard
    (registry : AvailableTools → List (String × String) → ToolsValue)
    (retrieval_tool : String → String → String → Tool)
    (tools : List ToolSpec) (assistant_id thread_id : Option String)
    (rd : String) :
    ((∃ t ∈ tools, t.type = AvailableTools.RETRIEVAL) →
      (assistant_id = none ∨ thread_id = none) →
      get_tools registry retrieval_tool tools assistant_id thread_id rd =
        .error retrieval_ids_error) ∧
    (∀ a b, assistant_id = some a → thread_id = some b →
      ∃ ts, get_tools registry retrieval_tool tools assistant_id thread_id
        rd = .ok ts) := by
  constructor
  · intro hex hids
    induction tools with
    | nil => simp at hex
    | cons t rest ih =>
      by_cases ht : t.type = AvailableTools.RETRIEVAL
      · have hres : resolve_tool registry retrieval_tool assistant_id
            thread_id rd t = .error retrieval_ids_error := by
          unfold resolve_tool
          rw [if_pos ht]
          rcases hids with h1 | h1 <;> subst h1
          · cases thread_id <;> rfl
          · cases assistant_id <;> rfl
        simp only [get_tools]
        rw [hres]
      · obtain ⟨t0, ht0mem, ht0⟩ := hex
        have ht0rest : t0 ∈ rest := by
          rcases List.mem_cons.mp ht0mem with h1 | h1
          · exact absurd (h1 ▸ ht0) ht
          · exact h1
        obtain ⟨hd, hres⟩ : ∃ hd, resolve_tool registry retrieval_tool
            assistant_id thread_id rd t = .ok hd := by
          unfold resolve_tool
          rw [if_neg ht]
          cases registry t.type t.config with
          | one tl => exact ⟨[tl], rfl⟩
          | many ts => exact ⟨ts, rfl⟩
        simp only [get_tools]
        rw [hres, ih ⟨t0, ht0rest, ht0⟩]
  · intro a b ha hb
    subst ha
    subst hb
    induction tools with
    | nil => exact ⟨[], rfl⟩
    | cons t rest ih =>
      obtain ⟨hd, hres⟩ : ∃ hd, resolve_tool registry retrieval_tool
          (some a) (some b) rd t = .ok hd := by
        unfold resolve_tool
        by_cases ht : t.type = AvailableTools.RETRIEVAL
        · rw [if_pos ht]
          exact ⟨[retrieval_tool a b rd], rfl⟩
        · rw [if_neg ht]
          cases registry t.type t.config with
          | one tl => exact ⟨[tl], rfl⟩
          | many ts => exact ⟨ts, rfl⟩
      obtain ⟨tl, htl⟩ := ih
      refine ⟨hd ++ tl, ?_⟩
      simp only [get_tools]
      rw [hres, htl]

/-- Witness for C5: a roster holding one retrieval entry errors when the
assistant id is absent and resolves when both ids are present. -/
theorem get_tools_retrieval_guard_witness :
    get_tools (fun _ _ => ToolsValue.many []) (fun a b c => ⟨a ++ b ++ c⟩)
      [⟨AvailableTools.RETRIEVAL, []⟩] none (some "t1") "docs" =
      .error retrieval_ids_error ∧
    ∃ ts, get_tools (fun _ _ => ToolsValue.many [])
      (fun a b c => ⟨a ++ b ++ c⟩)
      [⟨AvailableTools.RETRIEVAL, []⟩] (some "a1") (some "t1") "docs" =
      .ok ts :=
  ⟨(get_tools_retrieval_guard _ _ _ _ _ _).1
      ⟨⟨AvailableTools.RETRIEVAL, []⟩, by decide, rfl⟩ (Or.inl rfl),
   (get_tools_retrieval_guard _ _ _ _ _ _).2 "a1" "t1" rfl rfl⟩

/-- Counterexample to C6 as stated: a function-role message carrying a
structured payload is not replaced by a human message with the *same*
content — the content is stringified (`str(m.content)`), which changes it.
-/
theorem _get_messages_same_content_counterexample :
    _get_messages [Message.function (Content.blocks ["a", "b"]) "f"]
      "sys" =
      [Message.system (Content.text "sys"),
       Message.human (Content.text "[a, b]")] ∧
    Content.text "[a, b]" ≠ Content.blocks ["a", "b"] := by
  constructor
  · rfl
  · decide

/-- C6 (amended): `_get_messages` returns the system message built from
the configured text followed by the inputs in order, where every
`LiberalToolMessage` becomes a tool message with stringified content,
every function-role message becomes a human message with *stringified*
content, and all other messages pass through unchanged. -/
theorem _get_messages_spec (messages : List Message)
    (system_message : String) :
    (_get_messages messages system_message).length =
      messages.length + 1 ∧
    (_get_messages messages system_message)[0]? =
      some (Message.system (Content.text system_message)) ∧
    ∀ i : Nat, (_get_messages messages system_message)[i + 1]? =
      messages[i]?.map (fun m =>
        match m with
        | .liberalTool c tcid name =>
          Message.tool (.text (pyStr c)) tcid name
        | .function c _ => Message.human (.text (pyStr c))
        | m => m) := by
  refine ⟨by simp [_get_messages], by simp [_get_messages], ?_⟩
  intro i
  simp [_get_messages, List.getElem?_map]

/-- C7: a tag outside the `LLMType` enumeration makes `get_llm` raise
`ValueError`, a tag outside the `AgentType` enumeration makes
`get_agent_executor` raise `ValueError`, and recognized tags raise
neither. -/
theorem unknown_tag_value_error (tag : String) (client : Client)
    (tools : List Tool) (system_message : String) (ib : Bool) :
    ((∃ e, get_llm tag = .error e) ↔ tag ∉ LLMType_values) ∧
    ((∃ e, get_agent_executor client tools tag system_message ib none =
      .error e) ↔ tag ∉ AgentType_values) := by
  constructor
  · unfold get_llm LLMType_values
    split_ifs with h1 h2 h3 h4 h5 h6 h7 h8 <;> simp_all
  · unfold get_agent_executor augmented_system_message AgentType_values
    split_ifs with h1 h2 h3 h4 h5 h6 <;> simp_all

/-- Witness for C7: the tag "Llama" is rejected by `get_llm` while the
recognized "Mixtral" is not; "Mixtral" is in turn outside `AgentType` and
rejected by `get_agent_executor` while "GEMINI" is accepted. -/
theorem unknown_tag_value_error_witness :
    (∃ e, get_llm "Llama" = .error e) ∧
    ¬(∃ e, get_llm "Mixtral" = .error e) ∧
    (∃ e, get_agent_executor ⟨fun _ => false, fun _ => []⟩ [] "Mixtral"
      "s" false none = .error e) ∧
    ¬(∃ e, get_agent_executor ⟨fun _ => false, fun _ => []⟩ [] "GEMINI"
      "s" false none = .error e) :=
  ⟨(unknown_tag_value_error "Llama" ⟨fun _ => false, fun _ => []⟩ [] "s"
      false).1.mpr (by decide),
   fun h => absurd ((unknown_tag_value_error "Mixtral"
      ⟨fun _ => false, fun _ => []⟩ [] "s" false).1.mp h) (by decide),
   (unknown_tag_value_error "Mixtral" ⟨fun _ => false, fun _ => []⟩ [] "s"
      false).2.mpr (by decide),
   fun h => absurd ((unknown_tag_value_error "GEMINI"
      ⟨fun _ => false, fun _ => []⟩ [] "s" false).2.mp h) (by decide)⟩

/-- C8: `stream_run` 404s when the thread is missing, 404s when the
thread's assistant is missing, and otherwise streams with
`interrupt_before = ["action"]` exactly when the assistant's
interrupt-before-action flag is set (no interrupt node otherwise). -/
theorem stream_run_spec
    (get_thread : String → String → Option ThreadRec)
    (get_assistant : String → String → Option AssistantRec)
    (user_id tid : String) :
    (get_thread user_id tid = none →
      stream_run get_thread get_assistant user_id tid =
        .error ⟨404, "Thread not found"⟩) ∧
    (∀ th, get_thread user_id tid = some th →
      get_assistant user_id th.assistant_id = none →
      stream_run get_thread get_assistant user_id tid =
        .error ⟨404, "Assistant not found"⟩) ∧
    (∀ th asst, get_thread user_id tid = some th →
      get_assistant user_id th.assistant_id = some asst →
      ∃ args, stream_run get_thread get_assistant user_id tid =
          .ok args ∧
        (args.interrupt_before = some ["action"] ↔
          (asst.configurable interrupt_key).getD false = true) ∧
        ((asst.configurable interrupt_key).getD false = false →
          args.interrupt_before = none)) := by
  refine ⟨?_, ?_, ?_⟩
  · intro h
    unfold stream_run
    rw [h]
  · intro th hth hasst
    simp only [stream_run, hth, hasst]
  · intro th asst hth hasst
    simp only [stream_run, hth, hasst]
    by_cases hflag : (asst.configurable interrupt_key).getD false <;>
      exact ⟨_, rfl, by simp [hflag], by simp [hflag]⟩

/-- Witness for C8: a concrete store where the thread and assistant exist
and the flag is set configures the interrupt; a store with the flag unset
does not; a missing thread 404s. -/
theorem stream_run_spec_witness :
    (∃ args, stream_run (fun _ t => if t = "t1" then some ⟨"a1"⟩ else none)
        (fun _ _ => some ⟨fun _ => some true⟩) "u" "t1" = .ok args ∧
      args.interrupt_before = some ["action"]) ∧
    (∃ args, stream_run (fun _ t => if t = "t1" then some ⟨"a1"⟩ else none)
        (fun _ _ => some ⟨fun _ => none⟩) "u" "t1" = .ok args ∧
      args.interrupt_before = none) ∧
    stream_run (fun _ _ => none) (fun _ _ => some ⟨fun _ => some true⟩)
      "u" "t1" = .error ⟨404, "Thread not found"⟩ := by
  refine ⟨?_, ?_, ?_⟩
  · obtain ⟨args, h1, h2, h3⟩ := (stream_run_spec
      (fun _ t => if t = "t1" then some ⟨"a1"⟩ else none)
      (fun _ _ => some ⟨fun _ => some true⟩) "u" "t1").2.2
      ⟨"a1"⟩ ⟨fun _ => some true⟩ rfl rfl
    exact ⟨args, h1, h2.mpr rfl⟩
  · obtain ⟨args, h1, h2, h3⟩ := (stream_run_spec
      (fun _ t => if t = "t1" then some ⟨"a1"⟩ else none)
      (fun _ _ => some ⟨fun _ => none⟩) "u" "t1").2.2
      ⟨"a1"⟩ ⟨fun _ => none⟩ rfl rfl
    exact ⟨args, h1, h3 rfl⟩
  · exact (stream_run_spec (fun _ _ => none)
      (fun _ _ => some ⟨fun _ => some true⟩) "u" "t1").1 rfl

/-- C10: `get_few_shot_str` yields a string exactly when the client
reports a dataset named after the assistant id — otherwise the body falls
through and yields `None` — so `system_message += get_few_shot_str(...)`
in `get_agent_executor` is well-defined only when the dataset exists, and
raises `TypeError` when it does not. -/
theorem get_few_shot_str_none_iff (client : Client) (aid : String)
    (ag : Bool) :
    ((get_few_shot_str client aid ag).isSome ↔
      client.hasDataset aid = true) ∧
    (client.hasDataset aid = false →
      ∀ (tools : List Tool) (tag sys : String) (ib : Bool),
        get_agent_executor client tools tag sys ib (some aid) =
          .error PyErr.typeError) := by
  constructor
  · unfold get_few_shot_str
    by_cases hd : client.hasDataset aid <;> simp [hd]
    split <;> simp
  · intro hd tools tag sys ib
    unfold get_agent_executor augmented_system_message get_few_shot_str
    simp [hd]

/-- Witness for C10: with a dataset present `get_few_shot_str` returns a
string; without one it returns `None` and `get_agent_executor` fails with
`TypeError` even for a recognized agent tag. -/
theorem get_few_shot_str_none_iff_witness :
    (get_few_shot_str ⟨fun _ => true, fun _ => []⟩ "a1" true).isSome ∧
    ¬(get_few_shot_str ⟨fun _ => false, fun _ => []⟩ "a1" true).isSome ∧
    get_agent_executor ⟨fun _ => false, fun _ => []⟩ [] "GPT 3.5 Turbo"
      "s" false (some "a1") = .error PyErr.typeError :=
  ⟨(get_few_shot_str_none_iff ⟨fun _ => true, fun _ => []⟩ "a1"
      true).1.mpr rfl,
   fun h => absurd ((get_few_shot_str_none_iff
      ⟨fun _ => false, fun _ => []⟩ "a1" true).1.mp h) (by decide),
   (get_few_shot_str_none_iff ⟨fun _ => false, fun _ => []⟩ "a1" true).2
      rfl [] "GPT 3.5 Turbo" "s" false⟩

end OpenGPTs
